import Mathlib

/-!
Shallow embedding of `media/formats/mpeg/mp3_stream_parser.cc`
(`MP3StreamParser::ParseFrameHeader` and its lookup tables).

Modelling conventions:
* A byte buffer is a `List Nat`; each entry is reduced `% 256` when read, so any
  list models a `const uint8*` of its length.
* `ParseFrameHeader` returns an `int` code: `0` = insufficient data (fewer than
  4 bytes, caller consumes 0 bytes and retries), `-1` = invalid header (caller
  consumes 0 bytes), `4` = success (4 header bytes consumed).
* The four `int*` / `ChannelLayout*` out-parameters are modelled by a `Provided`
  record of booleans (pointer non-null?) plus an `Outputs` record recording which
  locations the call has written (`none` = never written).  Dereferencing an
  omitted (null) pointer is undefined behaviour in the source; it is modelled by
  the distinguished outcome `ParseOutcome.nullDeref`.
* All header arithmetic in the source is non-negative `int` arithmetic with
  truncating division and no possible overflow (products are bounded by
  448*1000*144 < 2^31), so it is embedded as `Nat` arithmetic.
* With at least 4 bytes available the `BitReader` never fails while reading the
  32 header bits, so the reader-exhaustion branch (`return -1` at line 130) is
  dead code for `size >= 4`; the 10 fields are extracted directly from the first
  4 bytes, most-significant bit first, exactly as the sequence of `ReadBits`
  calls does.
-/

/-- `kIsAllowed` (17 x 4): which `bitrate_index` x `channel_mode` combinations
are allowed.  The C++ declaration has 17 rows but only 16 initialisers, so the
last row is value-initialised to all `false`. -/
def kIsAllowed : List (List Bool) := [
  [true, true, true, true],      -- free
  [true, false, false, false],   -- 32
  [true, false, false, false],   -- 48
  [true, false, false, false],   -- 56
  [true, true, true, true],      -- 64
  [true, false, false, false],   -- 80
  [true, true, true, true],      -- 96
  [true, true, true, true],      -- 112
  [true, true, true, true],      -- 128
  [true, true, true, true],      -- 160
  [true, true, true, true],      -- 192
  [false, true, true, true],     -- 224
  [false, true, true, true],     -- 256
  [false, true, true, true],     -- 320
  [false, true, true, true],     -- 384
  [false, false, false, false],  -- bad
  [false, false, false, false]]  -- (17th row, value-initialised)

/-- `kVersionLayerMap` (4 x 4): maps version and layer to a column of
`kBitrateMap`; 5 marks invalid/reserved. -/
def kVersionLayerMap : List (List Nat) := [
  -- [reserved, L3, L2, L1]
  [5, 4, 4, 3],  -- MPEG 2.5
  [5, 5, 5, 5],  -- reserved
  [5, 4, 4, 3],  -- MPEG 2
  [5, 2, 1, 0]]  -- MPEG 1

/-- `kBitrateMap` (16 x 6): bitrate in kbps; 0 marks invalid.  The last C++ row
has only 5 initialisers; the 6th entry is value-initialised to 0. -/
def kBitrateMap : List (List Nat) := [
  -- [V1L1, V1L2, V1L3, V2L1, V2L2 & V2L3, reserved]
  [0, 0, 0, 0, 0, 0],
  [32, 32, 32, 32, 8, 0],
  [64, 48, 40, 48, 16, 0],
  [96, 56, 48, 56, 24, 0],
  [128, 64, 56, 64, 32, 0],
  [160, 80, 64, 80, 40, 0],
  [192, 96, 80, 96, 48, 0],
  [224, 112, 96, 112, 56, 0],
  [256, 128, 112, 128, 64, 0],
  [288, 160, 128, 144, 80, 0],
  [320, 192, 160, 160, 96, 0],
  [352, 224, 192, 176, 112, 0],
  [384, 256, 224, 192, 128, 0],
  [416, 320, 256, 224, 144, 0],
  [448, 384, 320, 256, 160, 0],
  [0, 0, 0, 0, 0, 0]]

/-- `kSampleRateMap` (4 x 4): sample rate in Hz by sample-rate index and
version; 0 marks invalid/reserved. -/
def kSampleRateMap : List (List Nat) := [
  -- [V2.5, reserved, V2, V1]
  [11025, 0, 22050, 44100],
  [12000, 0, 24000, 48000],
  [8000, 0, 16000, 32000],
  [0, 0, 0, 0]]

-- Frame header field constants.
def kVersion2 : Nat := 2
def kVersionReserved : Nat := 1
def kVersion2_5 : Nat := 0
def kLayerReserved : Nat := 0
def kLayer1 : Nat := 3
def kLayer2 : Nat := 2
def kLayer3 : Nat := 1
def kBitrateFree : Nat := 0
def kBitrateBad : Nat := 0xf
def kSampleRateReserved : Nat := 3

/-- The ten header fields read by the ten `ReadBits` calls (lines 120-129). -/
structure Fields where
  sync : Nat
  version : Nat
  layer : Nat
  is_protected : Nat
  bitrate_index : Nat
  sample_rate_index : Nat
  has_padding : Nat
  is_private : Nat
  channel_mode : Nat
  other_flags : Nat
deriving DecidableEq, Repr

/-- The 32-bit big-endian word formed by the first four bytes of the buffer
(the bits the `BitReader` walks through). -/
def headerWord (data : List Nat) : Nat :=
  data.getD 0 0 % 256 * 2 ^ 24 + data.getD 1 0 % 256 * 2 ^ 16 +
    data.getD 2 0 % 256 * 2 ^ 8 + data.getD 3 0 % 256

/-- Field extraction: `sync(11) version(2) layer(2) protected(1)
bitrate_index(4) sample_rate_index(2) padding(1) private(1) channel_mode(2)
other_flags(6)`, MSB first. -/
def extractFields (data : List Nat) : Fields :=
  { sync := headerWord data / 2 ^ 21
    version := headerWord data / 2 ^ 19 % 4
    layer := headerWord data / 2 ^ 17 % 4
    is_protected := headerWord data / 2 ^ 16 % 2
    bitrate_index := headerWord data / 2 ^ 12 % 16
    sample_rate_index := headerWord data / 2 ^ 10 % 4
    has_padding := headerWord data / 2 ^ 9 % 2
    is_private := headerWord data / 2 ^ 8 % 2
    channel_mode := headerWord data / 2 ^ 6 % 4
    other_flags := headerWord data % 64 }

/-- `media::ChannelLayout`, restricted to the two values this function uses. -/
inductive ChannelLayout where
  | CHANNEL_LAYOUT_MONO
  | CHANNEL_LAYOUT_STEREO
deriving DecidableEq, Repr

/-- Which of the four out-pointers the caller passed as non-null. -/
structure Provided where
  frame_size : Bool
  sample_rate : Bool
  channel_layout : Bool
  sample_count : Bool
deriving DecidableEq, Repr

/-- The stores the call performed through the out-pointers
(`none` = that location was never written). -/
structure Outputs where
  frame_size : Option Nat
  sample_rate : Option Nat
  channel_layout : Option ChannelLayout
  sample_count : Option Nat
deriving DecidableEq, Repr

/-- No output location written yet. -/
def emptyOutputs : Outputs := ⟨none, none, none, none⟩

/-- All four out-pointers non-null. -/
def allProvided : Provided := ⟨true, true, true, true⟩

/-- Outcome of a call: the returned `int` together with the stores performed,
or undefined behaviour from writing through a null pointer. -/
inductive ParseOutcome where
  | nullDeref
  | ret (code : Int) (outs : Outputs)
deriving DecidableEq, Repr

/-- Line 164: `kBitrateMap[bitrate_index][kVersionLayerMap[version][layer]]`. -/
def bitrate (f : Fields) : Nat :=
  (kBitrateMap.getD f.bitrate_index []).getD
    ((kVersionLayerMap.getD f.version []).getD f.layer 0) 0

/-- Line 176: `kSampleRateMap[sample_rate_index][version]`. -/
def frameSampleRate (f : Fields) : Nat :=
  (kSampleRateMap.getD f.sample_rate_index []).getD f.version 0

/-- Lines 184-185: `if (sample_rate) *sample_rate = frame_sample_rate;` —
the state of the outputs right after that store. -/
def sampleRateOuts (p : Provided) (f : Fields) : Outputs :=
  if p.sample_rate then
    { emptyOutputs with sample_rate := some (frameSampleRate f) }
  else emptyOutputs

/-- Lines 215-224: the frame-size computation before the padding correction.
Layer I: `4 * (12 * bitrate * 1000 / frame_sample_rate)`;
otherwise: `((samples_per_frame / 8) * bitrate * 1000) / frame_sample_rate`. -/
def baseFrameSize (f : Fields) (samples_per_frame : Nat) : Nat :=
  if f.layer = kLayer1 then
    4 * (12 * bitrate f * 1000 / frameSampleRate f)
  else
    samples_per_frame / 8 * bitrate f * 1000 / frameSampleRate f

/-- Lines 210-236: the tail of `ParseFrameHeader` after the samples-per-frame
switch: store `*sample_count` if provided, then store `*frame_size`
unconditionally (null `frame_size` here is a null dereference), apply the
padding correction (lines 226-227), store `*channel_layout` if provided
(lines 229-234), and return 4. -/
def storeDerived (f : Fields) (p : Provided) (outs : Outputs)
    (samples_per_frame : Nat) : ParseOutcome :=
  if p.frame_size then
    .ret 4
      { frame_size := some (baseFrameSize f samples_per_frame +
          (if f.has_padding ≠ 0 then (if f.layer = kLayer1 then 4 else 1)
           else 0))
        sample_rate := outs.sample_rate
        channel_layout :=
          if p.channel_layout then
            some (if f.channel_mode = 3 then ChannelLayout.CHANNEL_LAYOUT_MONO
                  else ChannelLayout.CHANNEL_LAYOUT_STEREO)
          else none
        sample_count :=
          if p.sample_count then some samples_per_frame else none }
  else .nullDeref

/-- Lines 141-236 of `ParseFrameHeader`: everything after field extraction. -/
def parseFromFields (f : Fields) (p : Provided) : ParseOutcome :=
  -- lines 141-154
  if f.sync ≠ 0x7ff ∨ f.version = kVersionReserved ∨ f.layer = kLayerReserved ∨
      f.bitrate_index = kBitrateFree ∨ f.bitrate_index = kBitrateBad ∨
      f.sample_rate_index = kSampleRateReserved then
    .ret (-1) emptyOutputs
  -- lines 156-162
  else if f.layer = kLayer2 ∧
      (kIsAllowed.getD f.bitrate_index []).getD f.channel_mode false = true then
    .ret (-1) emptyOutputs
  -- lines 164-172
  else if bitrate f = 0 then
    .ret (-1) emptyOutputs
  -- lines 176-182
  else if frameSampleRate f = 0 then
    .ret (-1) emptyOutputs
  -- lines 184-208: *sample_rate is stored, then the switch on layer
  else if f.layer = kLayer1 then
    storeDerived f p (sampleRateOuts p f) 384
  else if f.layer = kLayer2 then
    storeDerived f p (sampleRateOuts p f) 1152
  else if f.layer = kLayer3 then
    storeDerived f p (sampleRateOuts p f)
      (if f.version = kVersion2 ∨ f.version = kVersion2_5 then 576 else 1152)
  else
    -- switch default (lines 206-207): returns -1 after the *sample_rate store
    .ret (-1) (sampleRateOuts p f)

/-- `MP3StreamParser::ParseFrameHeader` (lines 95-237). -/
def MP3StreamParser.ParseFrameHeader (data : List Nat) (p : Provided) :
    ParseOutcome :=
  if data.length < 4 then .ret 0 emptyOutputs
  else parseFromFields (extractFields data) p

/-- The samples-per-frame value chosen by the switch at lines 189-208, for the
three layer values that survive validation. -/
def spfOf (f : Fields) : Nat :=
  if f.layer = kLayer1 then 384
  else if f.layer = kLayer2 then 1152
  else if f.version = kVersion2 ∨ f.version = kVersion2_5 then 576 else 1152

/-- The outputs a successful call stores, as a function of the header fields
and the provided out-pointers. -/
def successOuts (f : Fields) (p : Provided) : Outputs :=
  { frame_size := some (baseFrameSize f (spfOf f) +
      (if f.has_padding ≠ 0 then (if f.layer = kLayer1 then 4 else 1) else 0))
    sample_rate := if p.sample_rate then some (frameSampleRate f) else none
    channel_layout :=
      if p.channel_layout then
        some (if f.channel_mode = 3 then ChannelLayout.CHANNEL_LAYOUT_MONO
              else ChannelLayout.CHANNEL_LAYOUT_STEREO)
      else none
    sample_count := if p.sample_count then some (spfOf f) else none }

theorem layer_lt_four (data : List Nat) : (extractFields data).layer < 4 :=
  Nat.mod_lt _ (by norm_num)

theorem version_lt_four (data : List Nat) : (extractFields data).version < 4 :=
  Nat.mod_lt _ (by norm_num)

theorem bitrate_index_lt_sixteen (data : List Nat) :
    (extractFields data).bitrate_index < 16 :=
  Nat.mod_lt _ (by norm_num)

theorem sample_rate_index_lt_four (data : List Nat) :
    (extractFields data).sample_rate_index < 4 :=
  Nat.mod_lt _ (by norm_num)

/-- A call that returns 4 went through every validation check and stored
exactly `successOuts`. -/
theorem success_shape (data : List Nat) (p : Provided) (outs : Outputs)
    (h : MP3StreamParser.ParseFrameHeader data p = .ret 4 outs) :
    4 ≤ data.length ∧ p.frame_size = true ∧
    (extractFields data).sync = 0x7ff ∧
    (extractFields data).version ≠ kVersionReserved ∧
    (extractFields data).layer ≠ kLayerReserved ∧
    (extractFields data).bitrate_index ≠ kBitrateFree ∧
    (extractFields data).bitrate_index ≠ kBitrateBad ∧
    (extractFields data).sample_rate_index ≠ kSampleRateReserved ∧
    bitrate (extractFields data) ≠ 0 ∧
    frameSampleRate (extractFields data) ≠ 0 ∧
    ((extractFields data).layer = kLayer1 ∨
      (extractFields data).layer = kLayer2 ∨
      (extractFields data).layer = kLayer3) ∧
    outs = successOuts (extractFields data) p := by
  unfold MP3StreamParser.ParseFrameHeader at h
  split at h
  · simp at h
  next hlen =>
    unfold parseFromFields at h
    split at h
    · simp at h
    next h1 =>
      push_neg at h1
      obtain ⟨hsync, hver, hlay, hbf, hbb, hsr⟩ := h1
      split at h
      · simp at h
      next h2 =>
        split at h
        · simp at h
        next hbr =>
          split at h
          · simp at h
          next hfsr =>
            refine ⟨by omega, ?_⟩
            split at h
            next hl1 =>
              unfold storeDerived at h
              split at h
              next hp =>
                simp only [ParseOutcome.ret.injEq, true_and] at h
                subst h
                refine ⟨hp, hsync, hver, hlay, hbf, hbb, hsr, hbr, hfsr,
                  Or.inl hl1, ?_⟩
                obtain ⟨fs, sr, cl, sc⟩ := p
                cases sr <;> cases sc <;> cases cl <;>
                  simp [successOuts, spfOf, sampleRateOuts, emptyOutputs, hl1,
                    kLayer1, kLayer2, kLayer3]
              · simp at h
            next hl1 =>
              split at h
              next hl2 =>
                unfold storeDerived at h
                split at h
                next hp =>
                  simp only [ParseOutcome.ret.injEq, true_and] at h
                  subst h
                  refine ⟨hp, hsync, hver, hlay, hbf, hbb, hsr, hbr, hfsr,
                    Or.inr (Or.inl hl2), ?_⟩
                  obtain ⟨fs, sr, cl, sc⟩ := p
                  cases sr <;> cases sc <;> cases cl <;>
                    simp [successOuts, spfOf, sampleRateOuts, emptyOutputs,
                      hl1, hl2, kLayer1, kLayer2, kLayer3]
                · simp at h
              next hl2 =>
                split at h
                next hl3 =>
                  unfold storeDerived at h
                  split at h
                  next hp =>
                    simp only [ParseOutcome.ret.injEq, true_and] at h
                    subst h
                    refine ⟨hp, hsync, hver, hlay, hbf, hbb, hsr, hbr, hfsr,
                      Or.inr (Or.inr hl3), ?_⟩
                    obtain ⟨fs, sr, cl, sc⟩ := p
                    cases sr <;> cases sc <;> cases cl <;>
                      simp [successOuts, spfOf, sampleRateOuts, emptyOutputs,
                        hl3, kLayer1, kLayer2, kLayer3]
                  · simp at h
                · simp at h

/-- C10: whenever the call returns insufficient-data (0) or the invalid-header
signal (-1), none of the caller-supplied output locations has been written.  In
particular the switch default at lines 206-207 — which would return -1 after
`*sample_rate` has already been stored — is unreachable, because a layer value
that survives validation is one of Layer I, II, III. -/
theorem c10_no_writes_on_failure (data : List Nat) (p : Provided) (c : Int)
    (outs : Outputs) (h : MP3StreamParser.ParseFrameHeader data p = .ret c outs)
    (hc : c = 0 ∨ c = -1) : outs = emptyOutputs := by
  unfold MP3StreamParser.ParseFrameHeader at h
  split at h
  · simp only [ParseOutcome.ret.injEq] at h
    exact h.2.symm
  next hlen =>
    unfold parseFromFields at h
    split at h
    · simp only [ParseOutcome.ret.injEq] at h
      exact h.2.symm
    next h1 =>
      push_neg at h1
      obtain ⟨hsync, hver, hlay, hbf, hbb, hsr⟩ := h1
      split at h
      · simp only [ParseOutcome.ret.injEq] at h
        exact h.2.symm
      next h2 =>
        split at h
        · simp only [ParseOutcome.ret.injEq] at h
          exact h.2.symm
        next hbr =>
          split at h
          · simp only [ParseOutcome.ret.injEq] at h
            exact h.2.symm
          next hfsr =>
            have hlt := layer_lt_four data
            split at h
            next hl1 =>
              unfold storeDerived at h
              split at h
              · simp only [ParseOutcome.ret.injEq] at h
                omega
              · simp at h
            next hl1 =>
              split at h
              next hl2 =>
                unfold storeDerived at h
                split at h
                · simp only [ParseOutcome.ret.injEq] at h
                  omega
                · simp at h
              next hl2 =>
                split at h
                next hl3 =>
                  unfold storeDerived at h
                  split at h
                  · simp only [ParseOutcome.ret.injEq] at h
                    omega
                  · simp at h
                next hl3 =>
                  exfalso
                  simp only [kLayer1, kLayer2, kLayer3, kLayerReserved]
                    at hl1 hl2 hl3 hlay
                  omega

/-- With a non-null `frame_size` the call never dereferences a null pointer:
`*frame_size` is the only unconditional store, and `*sample_rate`,
`*channel_layout`, `*sample_count` are all guarded by null checks. -/
theorem no_nullDeref_of_frame_size (data : List Nat) (p : Provided)
    (hp : p.frame_size = true) :
    MP3StreamParser.ParseFrameHeader data p ≠ .nullDeref := by
  intro h
  unfold MP3StreamParser.ParseFrameHeader at h
  split at h
  · simp at h
  · unfold parseFromFields at h
    split at h
    · simp at h
    · split at h
      · simp at h
      · split at h
        · simp at h
        · split at h
          · simp at h
          · split at h
            · unfold storeDerived at h
              split at h
              · simp at h
              next hfs => exact hfs hp
            · split at h
              · unfold storeDerived at h
                split at h
                · simp at h
                next hfs => exact hfs hp
              · split at h
                · unfold storeDerived at h
                  split at h
                  · simp at h
                  next hfs => exact hfs hp
                · simp at h

/-- The derived quantities only read the version, layer, bitrate-index and
sample-rate-index fields. -/
theorem derived_congr (f g : Fields) (hv : f.version = g.version)
    (hl : f.layer = g.layer) (hb : f.bitrate_index = g.bitrate_index)
    (hs : f.sample_rate_index = g.sample_rate_index) :
    bitrate f = bitrate g ∧ frameSampleRate f = frameSampleRate g ∧
      spfOf f = spfOf g ∧
      baseFrameSize f (spfOf f) = baseFrameSize g (spfOf g) := by
  obtain ⟨fs, fv, fl, fpr, fbi, fsi, fpa, fpv, fcm, fof⟩ := f
  obtain ⟨gs, gv, gl, gpr, gbi, gsi, gpa, gpv, gcm, gof⟩ := g
  dsimp only at hv hl hb hs
  subst hv hl hb hs
  exact ⟨rfl, rfl, rfl, rfl⟩

set_option maxRecDepth 100000 in
set_option synthInstance.maxSize 1024 in
/-- Exhaustive check over the bounded field values: whenever the bitrate and
sample-rate lookups are nonzero and the layer is not the reserved code, the
pre-padding frame size is at least 4. -/
theorem baseFrameSize_ge_four :
    ∀ bi < 16, ∀ v < 4, ∀ l < 4, ∀ si < 4, l ≠ 0 →
      bitrate ⟨0, v, l, 0, bi, si, 0, 0, 0, 0⟩ ≠ 0 →
      frameSampleRate ⟨0, v, l, 0, bi, si, 0, 0, 0, 0⟩ ≠ 0 →
      4 ≤ baseFrameSize ⟨0, v, l, 0, bi, si, 0, 0, 0, 0⟩
        (spfOf ⟨0, v, l, 0, bi, si, 0, 0, 0, 0⟩) := by
  decide

set_option maxRecDepth 10000 in
/-- Exhaustive check over the 4 x 4 version/layer space: outside the reserved
version row and the reserved layer column, `kVersionLayerMap` never holds the
sentinel 5 and always holds a value at most 4. -/
theorem versionLayerMap_bound :
    ∀ v < 4, ∀ l < 4, v ≠ kVersionReserved → l ≠ kLayerReserved →
      (kVersionLayerMap.getD v []).getD l 0 ≠ 5 ∧
        (kVersionLayerMap.getD v []).getD l 0 ≤ 4 := by
  decide

/-- C1: the claim says a Layer II header is rejected iff its
(bitrate_index, channel_mode) pair is marked disallowed (`false`) in
`kIsAllowed`, and that pairs marked allowed (`true`) are not rejected.  The code
does the opposite: the check at line 156 rejects when the entry is `true`.
Evaluated at two concrete Layer II headers that pass the
sync/version/layer/bitrate-index/sample-rate-index checks: header
`FF FC 10 00` (bitrate_index 1 = 32 kbps, channel_mode 0 = Stereo) has its pair
marked allowed yet is rejected, and header `FF FC 10 40` (channel_mode 1 =
Joint Stereo) has its pair marked disallowed yet is accepted. -/
theorem c1_layer2_allowed_pairs_rejected :
    ((extractFields [0xFF, 0xFC, 0x10, 0x00]).sync = 0x7ff ∧
      (extractFields [0xFF, 0xFC, 0x10, 0x00]).version = 3 ∧
      (extractFields [0xFF, 0xFC, 0x10, 0x00]).layer = kLayer2 ∧
      (extractFields [0xFF, 0xFC, 0x10, 0x00]).bitrate_index = 1 ∧
      (extractFields [0xFF, 0xFC, 0x10, 0x00]).sample_rate_index = 0 ∧
      (extractFields [0xFF, 0xFC, 0x10, 0x00]).channel_mode = 0 ∧
      (kIsAllowed.getD 1 []).getD 0 false = true ∧
      MP3StreamParser.ParseFrameHeader [0xFF, 0xFC, 0x10, 0x00] allProvided =
        .ret (-1) emptyOutputs) ∧
    ((extractFields [0xFF, 0xFC, 0x10, 0x40]).layer = kLayer2 ∧
      (extractFields [0xFF, 0xFC, 0x10, 0x40]).bitrate_index = 1 ∧
      (extractFields [0xFF, 0xFC, 0x10, 0x40]).channel_mode = 1 ∧
      (kIsAllowed.getD 1 []).getD 1 false = false ∧
      MP3StreamParser.ParseFrameHeader [0xFF, 0xFC, 0x10, 0x40] allProvided =
        .ret 4 ⟨some 104, some 44100, some ChannelLayout.CHANNEL_LAYOUT_STEREO,
                some 1152⟩) := by
  decide

/-- C2 counterexample: the claim says every output parameter, including
`frame_size`, may be omitted.  On a fully valid header with `frame_size`
omitted and the other three out-pointers provided, the call reaches the
unconditional `*frame_size` store at line 220 and dereferences the null
pointer. -/
theorem c2_omitted_frame_size_null_deref :
    MP3StreamParser.ParseFrameHeader [0xFF, 0xFA, 0x90, 0x00]
      ⟨false, true, true, true⟩ = .nullDeref := by
  decide

/-- C2 (amended): `sample_rate`, `channel_layout` and `sample_count` may each
be omitted, but `frame_size` must be provided.  For every buffer and every
subset of provided outputs that includes `frame_size`, the call completes
without dereferencing an omitted location, and on success writes exactly the
provided locations. -/
theorem c2_optional_outputs_amended (data : List Nat) (p : Provided)
    (hp : p.frame_size = true) :
    MP3StreamParser.ParseFrameHeader data p ≠ .nullDeref ∧
    ∀ outs, MP3StreamParser.ParseFrameHeader data p = .ret 4 outs →
      outs.frame_size.isSome = true ∧
      outs.sample_rate.isSome = p.sample_rate ∧
      outs.channel_layout.isSome = p.channel_layout ∧
      outs.sample_count.isSome = p.sample_count := by
  refine ⟨no_nullDeref_of_frame_size data p hp, ?_⟩
  intro outs h
  obtain ⟨-, -, -, -, -, -, -, -, -, -, -, houts⟩ := success_shape data p outs h
  subst houts
  unfold successOuts
  cases hsr : p.sample_rate <;> cases hcl : p.channel_layout <;>
    cases hsc : p.sample_count <;> simp [hsr, hcl, hsc]

/-- C2 witness: at a valid header with only `frame_size` and `sample_rate`
provided, the call does not hit a null dereference and writes exactly those
two locations. -/
theorem c2_optional_outputs_amended_witness :
    MP3StreamParser.ParseFrameHeader [0xFF, 0xFA, 0x90, 0x00]
        ⟨true, true, false, false⟩ ≠ .nullDeref ∧
      ((⟨some 417, some 44100, none, none⟩ : Outputs).frame_size.isSome = true ∧
        (⟨some 417, some 44100, none, none⟩ : Outputs).sample_rate.isSome = true ∧
        (⟨some 417, some 44100, none, none⟩ : Outputs).channel_layout.isSome
          = false ∧
        (⟨some 417, some 44100, none, none⟩ : Outputs).sample_count.isSome
          = false) :=
  ⟨(c2_optional_outputs_amended [0xFF, 0xFA, 0x90, 0x00]
      ⟨true, true, false, false⟩ (by decide)).1,
    (c2_optional_outputs_amended [0xFF, 0xFA, 0x90, 0x00]
      ⟨true, true, false, false⟩ (by decide)).2
      ⟨some 417, some 44100, none, none⟩ (by decide)⟩

/-- C3: for any buffer of at least 4 bytes whose extracted fields have a bad
sync word, the reserved version code, the reserved layer code, a free or bad
bitrate index, or the reserved sample-rate index, the call returns the
invalid-header signal -1 (distinct from the insufficient-data return 0, so the
caller consumes 0 bytes) with no output location written. -/
theorem c3_field_validation_rejects (data : List Nat) (p : Provided)
    (hlen : 4 ≤ data.length)
    (hbad : (extractFields data).sync ≠ 0x7ff ∨
      (extractFields data).version = kVersionReserved ∨
      (extractFields data).layer = kLayerReserved ∨
      (extractFields data).bitrate_index = kBitrateFree ∨
      (extractFields data).bitrate_index = kBitrateBad ∨
      (extractFields data).sample_rate_index = kSampleRateReserved) :
    MP3StreamParser.ParseFrameHeader data p = .ret (-1) emptyOutputs ∧
      (-1 : Int) ≠ 0 := by
  refine ⟨?_, by norm_num⟩
  unfold MP3StreamParser.ParseFrameHeader
  rw [if_neg (by omega)]
  unfold parseFromFields
  rw [if_pos hbad]

/-- C3 witness: four zero bytes have sync 0 and are rejected as invalid. -/
theorem c3_field_validation_rejects_witness :
    MP3StreamParser.ParseFrameHeader [0, 0, 0, 0] allProvided =
        .ret (-1) emptyOutputs ∧ (-1 : Int) ≠ 0 :=
  c3_field_validation_rejects [0, 0, 0, 0] allProvided (by decide) (by decide)

/-- C4: for every buffer of fewer than 4 bytes (lengths 0-3), regardless of
content, the call returns the insufficient-data signal 0 — distinct from both
the success return 4 and the invalid-header return -1 — with no output
location written (0 bytes consumed). -/
theorem c4_short_buffer_insufficient (data : List Nat) (p : Provided)
    (hlen : data.length < 4) :
    MP3StreamParser.ParseFrameHeader data p = .ret 0 emptyOutputs ∧
      (0 : Int) ≠ 4 ∧ (0 : Int) ≠ -1 := by
  refine ⟨?_, by norm_num, by norm_num⟩
  unfold MP3StreamParser.ParseFrameHeader
  rw [if_pos hlen]

/-- C4 witness: a 3-byte buffer with arbitrary content reports
insufficient data. -/
theorem c4_short_buffer_insufficient_witness :
    MP3StreamParser.ParseFrameHeader [0xFF, 0xFA, 0x90] allProvided =
        .ret 0 emptyOutputs ∧ (0 : Int) ≠ 4 ∧ (0 : Int) ≠ -1 :=
  c4_short_buffer_insufficient [0xFF, 0xFA, 0x90] allProvided (by decide)

/-- C5: for every accepted header the stored frame size equals the layer-
specific truncating formula — Layer I: `4 * (12 * bitrate_kbps * 1000 /
sample_rate_hz)`; Layer II/III: `(samples_per_frame / 8) * bitrate_kbps * 1000
/ sample_rate_hz` — plus exactly 4 (Layer I) or 1 (otherwise) iff the padding
flag is set; and two accepted headers identical except for the padding bit
differ in frame size by exactly that amount. -/
theorem c5_frame_size_formula :
    (∀ (data : List Nat) (p : Provided) (outs : Outputs),
      MP3StreamParser.ParseFrameHeader data p = .ret 4 outs →
      outs.frame_size = some
        ((if (extractFields data).layer = kLayer1 then
            4 * (12 * bitrate (extractFields data) * 1000 /
              frameSampleRate (extractFields data))
          else
            spfOf (extractFields data) / 8 * bitrate (extractFields data) *
              1000 / frameSampleRate (extractFields data)) +
          (if (extractFields data).has_padding ≠ 0 then
            (if (extractFields data).layer = kLayer1 then 4 else 1)
          else 0))) ∧
    (∀ (data data' : List Nat) (p p' : Provided) (outs outs' : Outputs),
      MP3StreamParser.ParseFrameHeader data p = .ret 4 outs →
      MP3StreamParser.ParseFrameHeader data' p' = .ret 4 outs' →
      (extractFields data').sync = (extractFields data).sync →
      (extractFields data').version = (extractFields data).version →
      (extractFields data').layer = (extractFields data).layer →
      (extractFields data').is_protected = (extractFields data).is_protected →
      (extractFields data').bitrate_index
        = (extractFields data).bitrate_index →
      (extractFields data').sample_rate_index
        = (extractFields data).sample_rate_index →
      (extractFields data').is_private = (extractFields data).is_private →
      (extractFields data').channel_mode = (extractFields data).channel_mode →
      (extractFields data').other_flags = (extractFields data).other_flags →
      (extractFields data).has_padding ≠ 0 →
      (extractFields data').has_padding = 0 →
      outs.frame_size = Option.map
        (fun m => m + (if (extractFields data).layer = kLayer1 then 4 else 1))
        outs'.frame_size) := by
  constructor
  · intro data p outs h
    obtain ⟨-, -, -, -, -, -, -, -, -, -, -, houts⟩ :=
      success_shape data p outs h
    subst houts
    rfl
  · intro data data' p p' outs outs' h h' hsy hv hl hpr hb hs hpv hcm hof
      hpad hpad'
    obtain ⟨-, -, -, -, -, -, -, -, -, -, -, houts⟩ :=
      success_shape data p outs h
    obtain ⟨-, -, -, -, -, -, -, -, -, -, -, houts'⟩ :=
      success_shape data' p' outs' h'
    subst houts houts'
    obtain ⟨hbr2, hfsr2, hspf2, hbase2⟩ :=
      derived_congr (extractFields data') (extractFields data) hv hl hb hs
    simp [successOuts, hbase2, hpad, hpad', hl]

/-- C5 witness: the 128 kbps 44100 Hz MPEG1 Layer III header gives frame size
417; the identical header with the padding bit set gives 418 = 417 + 1. -/
theorem c5_frame_size_formula_witness :
    (⟨some 417, some 44100, some ChannelLayout.CHANNEL_LAYOUT_STEREO,
        some 1152⟩ : Outputs).frame_size = some 417 ∧
      (⟨some 418, some 44100, some ChannelLayout.CHANNEL_LAYOUT_STEREO,
          some 1152⟩ : Outputs).frame_size =
        Option.map (fun m => m + 1)
          ((⟨some 417, some 44100, some ChannelLayout.CHANNEL_LAYOUT_STEREO,
              some 1152⟩ : Outputs).frame_size) :=
  ⟨c5_frame_size_formula.1 [0xFF, 0xFA, 0x90, 0x00] allProvided
      ⟨some 417, some 44100, some ChannelLayout.CHANNEL_LAYOUT_STEREO,
        some 1152⟩ (by decide),
    c5_frame_size_formula.2 [0xFF, 0xFA, 0x92, 0x00] [0xFF, 0xFA, 0x90, 0x00]
      allProvided allProvided
      ⟨some 418, some 44100, some ChannelLayout.CHANNEL_LAYOUT_STEREO,
        some 1152⟩
      ⟨some 417, some 44100, some ChannelLayout.CHANNEL_LAYOUT_STEREO,
        some 1152⟩
      (by decide) (by decide) (by decide) (by decide) (by decide) (by decide)
      (by decide) (by decide) (by decide) (by decide) (by decide) (by decide)
      (by decide)⟩

/-- C6: the concrete header `FF FA 90 00` — MPEG1 (version 3), Layer III,
bitrate 128 kbps, sample rate 44100 Hz, padding clear, channel mode Stereo —
succeeds with frame_size 417, sample_rate 44100, channel_layout Stereo,
sample_count 1152, and return value 4 (4 bytes consumed). -/
theorem c6_known_vector :
    (extractFields [0xFF, 0xFA, 0x90, 0x00]).version = 3 ∧
    (extractFields [0xFF, 0xFA, 0x90, 0x00]).layer = kLayer3 ∧
    bitrate (extractFields [0xFF, 0xFA, 0x90, 0x00]) = 128 ∧
    frameSampleRate (extractFields [0xFF, 0xFA, 0x90, 0x00]) = 44100 ∧
    (extractFields [0xFF, 0xFA, 0x90, 0x00]).has_padding = 0 ∧
    (extractFields [0xFF, 0xFA, 0x90, 0x00]).channel_mode = 0 ∧
    MP3StreamParser.ParseFrameHeader [0xFF, 0xFA, 0x90, 0x00] allProvided =
      .ret 4 ⟨some 417, some 44100, some ChannelLayout.CHANNEL_LAYOUT_STEREO,
              some 1152⟩ := by
  decide

/-- C7: for every accepted header with `sample_count` provided, the stored
samples-per-frame is 384 for Layer I, 1152 for Layer II, and for Layer III 576
when the version is MPEG2 or MPEG2.5 and 1152 otherwise (MPEG1). -/
theorem c7_samples_per_frame (data : List Nat) (p : Provided) (outs : Outputs)
    (h : MP3StreamParser.ParseFrameHeader data p = .ret 4 outs)
    (hp : p.sample_count = true) :
    outs.sample_count = some
      (if (extractFields data).layer = kLayer1 then 384
      else if (extractFields data).layer = kLayer2 then 1152
      else if (extractFields data).version = kVersion2 ∨
          (extractFields data).version = kVersion2_5 then 576
      else 1152) := by
  obtain ⟨-, -, -, -, -, -, -, -, -, -, -, houts⟩ := success_shape data p outs h
  subst houts
  unfold successOuts spfOf
  simp [hp]

/-- C7 witness: the MPEG1 Layer III header stores sample count 1152. -/
theorem c7_samples_per_frame_witness :
    (⟨some 417, some 44100, some ChannelLayout.CHANNEL_LAYOUT_STEREO,
        some 1152⟩ : Outputs).sample_count = some 1152 :=
  c7_samples_per_frame [0xFF, 0xFA, 0x90, 0x00] allProvided
    ⟨some 417, some 44100, some ChannelLayout.CHANNEL_LAYOUT_STEREO, some 1152⟩
    (by decide) (by decide)

/-- C8: on every successful call, any stored frame size is at least 4, any
stored sample rate is positive and is an entry of `kSampleRateMap`, any stored
channel layout is Mono exactly when channel_mode is 3 (SingleChannel) and
Stereo otherwise, and any stored sample count is one of 384, 576, 1152. -/
theorem c8_output_ranges (data : List Nat) (p : Provided) (outs : Outputs)
    (h : MP3StreamParser.ParseFrameHeader data p = .ret 4 outs) :
    (∀ n, outs.frame_size = some n → 4 ≤ n) ∧
    (∀ r, outs.sample_rate = some r → 0 < r ∧
      ∃ i, i < 4 ∧ ∃ j, j < 4 ∧ (kSampleRateMap.getD i []).getD j 0 = r) ∧
    (∀ cl, outs.channel_layout = some cl →
      (cl = ChannelLayout.CHANNEL_LAYOUT_MONO ↔
        (extractFields data).channel_mode = 3)) ∧
    (∀ c, outs.sample_count = some c → c = 384 ∨ c = 576 ∨ c = 1152) := by
  obtain ⟨hlen, hpfs, hsync, hver, hlay, hbf, hbb, hsr, hbr, hfsr, hlmem,
    houts⟩ := success_shape data p outs h
  subst houts
  have hcongr := derived_congr (extractFields data)
    ⟨0, (extractFields data).version, (extractFields data).layer, 0,
      (extractFields data).bitrate_index,
      (extractFields data).sample_rate_index, 0, 0, 0, 0⟩ rfl rfl rfl rfl
  refine ⟨?_, ?_, ?_, ?_⟩
  · intro n hn
    simp only [successOuts, Option.some.injEq] at hn
    have h4 := baseFrameSize_ge_four (extractFields data).bitrate_index
      (bitrate_index_lt_sixteen data) (extractFields data).version
      (version_lt_four data) (extractFields data).layer (layer_lt_four data)
      (extractFields data).sample_rate_index (sample_rate_index_lt_four data)
      (by simpa [kLayerReserved] using hlay)
      (by rw [← hcongr.1]; exact hbr)
      (by rw [← hcongr.2.1]; exact hfsr)
    rw [← hcongr.2.2.2] at h4
    omega
  · intro r hr
    simp only [successOuts] at hr
    split at hr
    · simp only [Option.some.injEq] at hr
      subst hr
      exact ⟨Nat.pos_of_ne_zero hfsr, (extractFields data).sample_rate_index,
        sample_rate_index_lt_four data, (extractFields data).version,
        version_lt_four data, rfl⟩
    · simp at hr
  · intro cl hcl
    simp only [successOuts] at hcl
    split at hcl
    · simp only [Option.some.injEq] at hcl
      subst hcl
      by_cases hcm : (extractFields data).channel_mode = 3 <;> simp [hcm]
    · simp at hcl
  · intro c hc
    simp only [successOuts] at hc
    split at hc
    · simp only [Option.some.injEq] at hc
      subst hc
      unfold spfOf
      split
      · left; rfl
      split
      · right; right; rfl
      split
      · right; left; rfl
      · right; right; rfl
    · simp at hc

/-- C8 witness: at the MPEG1 Layer III header, the call succeeds and the
stored outputs satisfy the range facts. -/
theorem c8_output_ranges_witness :
    MP3StreamParser.ParseFrameHeader [0xFF, 0xFA, 0x90, 0x00] allProvided =
        .ret 4 ⟨some 417, some 44100, some ChannelLayout.CHANNEL_LAYOUT_STEREO,
                some 1152⟩ ∧
      4 ≤ 417 ∧ 0 < 44100 ∧ (1152 = 384 ∨ 1152 = 576 ∨ 1152 = 1152) :=
  ⟨by decide,
    (c8_output_ranges [0xFF, 0xFA, 0x90, 0x00] allProvided
        ⟨some 417, some 44100, some ChannelLayout.CHANNEL_LAYOUT_STEREO,
          some 1152⟩ (by decide)).1 417 rfl,
    ((c8_output_ranges [0xFF, 0xFA, 0x90, 0x00] allProvided
        ⟨some 417, some 44100, some ChannelLayout.CHANNEL_LAYOUT_STEREO,
          some 1152⟩ (by decide)).2.1 44100 rfl).1,
    (c8_output_ranges [0xFF, 0xFA, 0x90, 0x00] allProvided
        ⟨some 417, some 44100, some ChannelLayout.CHANNEL_LAYOUT_STEREO,
          some 1152⟩ (by decide)).2.2.2 1152 rfl⟩

/-- C9: when the extracted fields pass the sync/version/layer/bitrate-index/
sample-rate-index checks (so version is not the reserved code 1 and layer is
not the reserved code 0), the column selector
`kVersionLayerMap[version][layer]` is never the reserved sentinel 5 and always
lies in 0..4. -/
theorem c9_version_layer_map_never_reserved (data : List Nat)
    (_hsync : (extractFields data).sync = 0x7ff)
    (hver : (extractFields data).version ≠ kVersionReserved)
    (hlay : (extractFields data).layer ≠ kLayerReserved)
    (_hbf : (extractFields data).bitrate_index ≠ kBitrateFree)
    (_hbb : (extractFields data).bitrate_index ≠ kBitrateBad)
    (_hsr : (extractFields data).sample_rate_index ≠ kSampleRateReserved) :
    (kVersionLayerMap.getD (extractFields data).version []).getD
        (extractFields data).layer 0 ≠ 5 ∧
      (kVersionLayerMap.getD (extractFields data).version []).getD
        (extractFields data).layer 0 ≤ 4 :=
  versionLayerMap_bound (extractFields data).version (version_lt_four data)
    (extractFields data).layer (layer_lt_four data) hver hlay

/-- C9 witness: for the MPEG1 Layer III header the selector is 2. -/
theorem c9_version_layer_map_never_reserved_witness :
    (kVersionLayerMap.getD (extractFields [0xFF, 0xFA, 0x90, 0x00]).version
        []).getD (extractFields [0xFF, 0xFA, 0x90, 0x00]).layer 0 ≠ 5 ∧
      (kVersionLayerMap.getD (extractFields [0xFF, 0xFA, 0x90, 0x00]).version
        []).getD (extractFields [0xFF, 0xFA, 0x90, 0x00]).layer 0 ≤ 4 :=
  c9_version_layer_map_never_reserved [0xFF, 0xFA, 0x90, 0x00] (by decide)
    (by decide) (by decide) (by decide) (by decide) (by decide)

/-- C10 witness: four zero bytes are rejected as invalid (-1) with no output
location written. -/
theorem c10_no_writes_on_failure_witness :
    MP3StreamParser.ParseFrameHeader [0, 0, 0, 0] allProvided =
        .ret (-1) emptyOutputs ∧ emptyOutputs = emptyOutputs :=
  ⟨by decide,
    c10_no_writes_on_failure [0, 0, 0, 0] allProvided (-1) emptyOutputs
      (by decide) (Or.inr rfl)⟩
